import Mathlib

/-!
Verification development for the `realtime-python-api` repository.

Part 1 embeds the data model of `src/pupil_labs/realtime_api/models.py`
(`Sensor`, `Status` and their methods).  Part 2 embeds the RTSP streaming
subsystem (`streaming/base.py`, `streaming/gaze.py`, `streaming/video.py`);
those files are re-exported by `streaming/__init__.py` but their bodies are
not part of the available sources, so the corresponding definitions are
modelled from the specification, as marked in their doc comments.
-/

namespace RealtimeAPI

/-! ### Data model, from `src/pupil_labs/realtime_api/models.py` -/

/-- Embeds `Phone` (models.py, a NamedTuple of status fields). -/
structure Phone where
  battery_level : Int
  battery_state : String
  device_id : String
  device_name : String
  ip : String
  memory : Int
  memory_state : String
  time_echo_port : Option Nat := none
deriving DecidableEq, Repr

/-- Embeds `Hardware` (models.py); every field defaults to `"unknown"`. -/
structure Hardware where
  version : String := "unknown"
  glasses_serial : String := "unknown"
  world_camera_serial : String := "unknown"
  module_serial : String := "unknown"
deriving DecidableEq, Repr

/-- Embeds `NetworkDevice` (models.py). -/
structure NetworkDevice where
  ip : String
  device_id : String
  device_name : String
  connected : Bool
deriving DecidableEq, Repr

/-- Embeds `Recording` (models.py). -/
structure Recording where
  action : String
  id : String
  message : String
  rec_duration_ns : Nat
deriving DecidableEq, Repr

/-- Embeds `Sensor` (models.py lines 112-137): a NamedTuple whose optional
fields default to `None` and whose `protocol` field defaults to `"rtsp"`. -/
structure Sensor where
  sensor : String
  conn_type : String
  connected : Bool := false
  ip : Option String := none
  params : Option String := none
  port : Option Nat := none
  protocol : String := "rtsp"
deriving DecidableEq, Repr

/-- Python renders `None` inside an f-string as the text `"None"`; this helper
mirrors that for optional strings. -/
def optStr (o : Option String) : String := o.getD "None"

/-- Python renders an optional integer inside an f-string as its decimal text,
or `"None"` when absent. -/
def optNatStr : Option Nat → String
  | none => "None"
  | some n => toString n

/-- Embeds `Sensor.url` (models.py lines 121-125):
`f"{self.protocol}://{self.ip}:{self.port}/?{self.params}"` when connected,
`None` otherwise. -/
def Sensor.url (s : Sensor) : Option String :=
  if s.connected then
    some (s.protocol ++ "://" ++ optStr s.ip ++ ":" ++ optNatStr s.port
      ++ "/?" ++ optStr s.params)
  else
    none

/-- Embeds `Status` (models.py lines 195-229). -/
structure Status where
  phone : Phone
  hardware : Hardware
  sensors : List Sensor
  recording : Option Recording
deriving DecidableEq, Repr

/-- Embeds the `Component` union type of models.py (`Phone`, `Hardware`,
`Sensor`, `Recording`, `NetworkDevice`), which `Status.update` dispatches on
by `isinstance`. -/
inductive Component where
  | phone (p : Phone)
  | hardware (h : Hardware)
  | sensor (s : Sensor)
  | recording (r : Recording)
  | networkDevice (n : NetworkDevice)
deriving DecidableEq, Repr

/-- Matching condition used by `Status.update` (models.py lines 239-243):
`sensor.sensor == component.sensor and sensor.conn_type == component.conn_type`. -/
def sensorKeyMatches (t c : Sensor) : Bool :=
  t.sensor == c.sensor && t.conn_type == c.conn_type

/-- Embeds the sensor branch of `Status.update`: replace the first list entry
whose `(sensor, conn_type)` pair matches, then `break`; no entry is appended. -/
def replaceFirstMatching : List Sensor → Sensor → List Sensor
  | [], _ => []
  | t :: ts, c =>
    if sensorKeyMatches t c then c :: ts else t :: replaceFirstMatching ts c

/-- Embeds `Status.update` (models.py lines 231-245); `NetworkDevice`
components fall through the `isinstance` chain and leave the status unchanged. -/
def Status.update (st : Status) : Component → Status
  | .phone p => { st with phone := p }
  | .hardware h => { st with hardware := h }
  | .recording r => { st with recording := r }
  | .sensor s => { st with sensors := replaceFirstMatching st.sensors s }
  | .networkDevice _ => st

/-- Embeds `Status.matching_sensors` (models.py lines 247-256).  The enum
arguments `Sensor.Name` / `Sensor.Connection` are carried by their payload
value: `none` stands for the `ANY` member, `some v` for a member with value
`v`. -/
def Status.matching_sensors (st : Status) (name : Option String)
    (connection : Option String) : List Sensor :=
  st.sensors.filter fun s =>
    (match name with
      | none => true
      | some n => s.sensor == n)
    && (match connection with
      | none => true
      | some c => s.conn_type == c)

/-- Embeds `Status.direct_world_sensor` (models.py lines 258-264):
`next(self.matching_sensors(WORLD, DIRECT), Sensor(sensor="world",
conn_type="DIRECT"))`.  The Python body always produces a `Sensor` value, so
the embedding returns `Sensor` directly despite the `Optional` annotation. -/
def Status.direct_world_sensor (st : Status) : Sensor :=
  (st.matching_sensors (some "world") (some "DIRECT")).headD
    { sensor := "world", conn_type := "DIRECT" }

/-- Embeds `Status.direct_gaze_sensor` (models.py lines 266-272). -/
def Status.direct_gaze_sensor (st : Status) : Sensor :=
  (st.matching_sensors (some "gaze") (some "DIRECT")).headD
    { sensor := "gaze", conn_type := "DIRECT" }

/-- Embeds `Status.direct_imu_sensor` (models.py lines 274-280). -/
def Status.direct_imu_sensor (st : Status) : Sensor :=
  (st.matching_sensors (some "imu") (some "DIRECT")).headD
    { sensor := "imu", conn_type := "DIRECT" }

/-- Embeds `Status.direct_eyes_sensor` (models.py lines 282-288). -/
def Status.direct_eyes_sensor (st : Status) : Sensor :=
  (st.matching_sensors (some "eyes") (some "DIRECT")).headD
    { sensor := "eyes", conn_type := "DIRECT" }

/-! ### Streaming subsystem

The files `streaming/base.py`, `streaming/gaze.py` and `streaming/video.py`
are re-exported by `streaming/__init__.py` (`RTSPData`, `RTSPRawStreamer`,
`SDPDataNotAvailableError`, `receive_raw_rtsp_data`, `GazeData`,
`receive_gaze_data`, `VideoFrame`, `receive_video_frames`) but their bodies
are not among the available sources.  The definitions below are therefore
modelled from the specification (spec.md §3, §4.1-§4.4, §6-§8), keeping the
exported names. -/

/-- Modelled from the spec: `RawPacket` (§3) — the raw transport packet type
`RTSPData` exported by `streaming/base.py`, which is missing from the sources.
`payload` is the byte sequence (each entry a byte value), `timestamp` the
transport timestamp, `seq` the sequence number; `marker` is the
frame-boundary marker observed by the video decoder (§4.3). -/
structure RTSPData where
  payload : List Nat
  timestamp : Nat
  seq : Nat
  marker : Bool := false
deriving DecidableEq, Repr

/-- Big-endian value of a byte list. -/
def bytesBE (bs : List Nat) : Nat :=
  bs.foldl (fun acc b => acc * 256 + b) 0

/-- Modelled from the spec: `GazeSample` (§3) — the `GazeData` record exported
by `streaming/gaze.py`, which is missing from the sources.  The `x`/`y`
coordinate fields are carried as their raw 32-bit payload words (the spec's
floats are not modelled bit-for-bit); the timestamp is in nanoseconds since
epoch. -/
structure GazeData where
  x : Nat
  y : Nat
  worn : Bool
  pupilLeft : Option Nat := none
  pupilRight : Option Nat := none
  timestamp_unix_ns : Nat
deriving DecidableEq, Repr

/-- Modelled from the spec: well-formedness of a fixed-size 26-byte gaze
record (§4.3, §8: "three gaze packets of 26 bytes each (valid fixed
layout)").  A record is malformed when it has the wrong size or an
out-of-range field: a payload entry that is not a byte, a `worn` byte other
than 0 or 255, or a pupil-presence flag byte other than 0 or 1. -/
def wellFormedGazePayload (b : List Nat) : Bool :=
  b.length == 26 && b.all (· < 256)
    && (b.getD 8 0 == 0 || b.getD 8 0 == 255)
    && (b.getD 9 0 == 0 || b.getD 9 0 == 1)

/-- Field extraction for a well-formed gaze record: `x` is bytes 0-3, `y`
bytes 4-7, `worn` byte 8 (255 = worn), a pupil-presence flag at byte 9 with
the two diameters at bytes 10-13 and 14-17, and the nanosecond timestamp at
bytes 18-25, all big-endian. -/
def gazeOf (p : RTSPData) : GazeData :=
  { x := bytesBE (p.payload.take 4)
    y := bytesBE ((p.payload.drop 4).take 4)
    worn := p.payload.getD 8 0 == 255
    pupilLeft :=
      if p.payload.getD 9 0 == 1 then some (bytesBE ((p.payload.drop 10).take 4))
      else none
    pupilRight :=
      if p.payload.getD 9 0 == 1 then some (bytesBE ((p.payload.drop 14).take 4))
      else none
    timestamp_unix_ns := bytesBE ((p.payload.drop 18).take 8) }

/-- Modelled from the spec: the gaze decoder step (§4.3) — each raw packet
maps to exactly one `GazeData` when its payload is a well-formed fixed-size
record, and a malformed record is dropped (zero samples), never raising. -/
def decodeGazePacket (p : RTSPData) : Option GazeData :=
  if wellFormedGazePayload p.payload then some (gazeOf p) else none

/-- Modelled from the spec: the gaze decoder run over a packet sequence in
transport arrival order (§4.2, §4.3); part of the missing
`streaming/gaze.py`. -/
def decodeGazeStream (ps : List RTSPData) : List GazeData :=
  ps.filterMap decodeGazePacket

/-! #### Session description resolution (missing `streaming/base.py`) -/

/-- Modelled from the spec: `SessionDescriptor` (§3, GLOSSARY) — parsed
session metadata: a media format identifier and the clock rate. -/
structure SessionDescription where
  mediaFormat : String
  clockRate : Nat
deriving DecidableEq, Repr

/-- Embeds `SDPDataNotAvailableError` (exported by `streaming/__init__.py`),
carrying its message. -/
structure SDPDataNotAvailableError where
  message : String
deriving DecidableEq, Repr

/-- Modelled from the spec: parse one `a=rtpmap:` attribute value of the form
`"<payload type> <format>/<clock rate>"` into session metadata, failing on
any other shape (§4.1: the description must parse as valid session
metadata). -/
def parseRtpmap (line : String) : Option SessionDescription :=
  match line.splitOn " " with
  | [_, fmtRate] =>
    match fmtRate.splitOn "/" with
    | [fmt, rate] => (rate.toNat?).map fun r => { mediaFormat := fmt, clockRate := r }
    | _ => none
  | _ => none

/-- Modelled from the spec: strict parsing of a session description text
(§4.1, §9): the text must start with an SDP version line and contain exactly
one `a=rtpmap:` attribute, whose value must parse; otherwise the description
"cannot be parsed as valid session metadata". -/
def parseSessionDescription (s : String) : Option SessionDescription :=
  if s.startsWith "v=0" then
    match s.splitOn "a=rtpmap:" with
    | [_, rest] => parseRtpmap ((rest.splitOn "\r\n").headD rest)
    | _ => none
  else none

/-- Modelled from the spec: the externally observable behaviour of one
`StreamEndpoint` during one connection attempt (§4.1, §4.2): the response to
the describe request (`none` when no description is exposed within the
bounded timeout) and the raw packets the transport would deliver. -/
structure EndpointBehavior where
  describeResponse : Option String
  packets : List RTSPData
deriving DecidableEq, Repr

/-- Modelled from the spec: the Session Descriptor Resolver (§4.1, missing
`streaming/base.py`): fetch the description, fail with
`SDPDataNotAvailableError` when it is not exposed within the bounded timeout
or cannot be parsed. -/
def resolveSessionDescription (b : EndpointBehavior) :
    Except SDPDataNotAvailableError SessionDescription :=
  match b.describeResponse with
  | none => .error { message := "no SDP data available before timeout" }
  | some s =>
    match parseSessionDescription s with
    | none => .error { message := "SDP data could not be parsed" }
    | some d => .ok d

/-- Modelled from the spec: `receive_raw_rtsp_data` (§6 raw mode, missing
`streaming/base.py`): resolve the session description first; only on success
is the transport opened and are raw packets requested and delivered. -/
def receive_raw_rtsp_data (b : EndpointBehavior) :
    Except SDPDataNotAvailableError (SessionDescription × List RTSPData) :=
  match resolveSessionDescription b with
  | .error e => .error e
  | .ok d => .ok (d, b.packets)

/-! #### Video decoding (missing `streaming/video.py`) -/

/-- Modelled from the spec: `VideoFrame` (§3) — pixel buffer bytes, frame
dimensions, and the wall-clock timestamp in nanoseconds since epoch. -/
structure VideoFrame where
  buffer : List Nat
  width : Nat
  height : Nat
  timestamp_unix_ns : Nat
deriving DecidableEq, Repr

/-- Modelled from the spec: the clock-reference sample established at session
start (§4.3), pairing a transport timestamp with its wall-clock time. -/
structure ClockReference where
  rtpRef : Nat
  wallRefNs : Nat
deriving DecidableEq, Repr

/-- Modelled from the spec: static configuration of the video decoder — the
session's clock rate (§3 `SessionDescriptor`), the clock reference, and the
frame dimensions taken from the session metadata. -/
structure VideoDecoderConfig where
  clockRate : Nat
  ref : ClockReference
  width : Nat
  height : Nat
deriving DecidableEq, Repr

/-- Modelled from the spec: conversion of a transport timestamp to wall-clock
nanoseconds using the clock rate and the clock-reference sample (§4.3). -/
def rtpToWallNs (cfg : VideoDecoderConfig) (ts : Nat) : Nat :=
  cfg.ref.wallRefNs + (ts - cfg.ref.rtpRef) * 1000000000 / cfg.clockRate

/-- Sequence numbers of consecutively buffered packets must be consecutive; a
violation is the "sequence-number gap" of §4.3. -/
def seqContiguous : List RTSPData → Bool
  | [] => true
  | [_] => true
  | a :: b :: rest => (b.seq == a.seq + 1) && seqContiguous (b :: rest)

/-- Whether a packet belongs to the frame currently buffered: the buffer is
empty, or the packet carries the buffered frame's transport timestamp. -/
def sameFrame (buf : List RTSPData) (p : RTSPData) : Bool :=
  match buf with
  | [] => true
  | q :: _ => p.timestamp == q.timestamp

/-- Modelled from the spec: completing a buffered frame (§4.3, missing
`streaming/video.py`).  A frame whose packets show a sequence-number gap is
dropped (`none`), never emitted partially; otherwise one `VideoFrame` is
emitted whose buffer reassembles every constituent packet's payload and whose
timestamp is the wall-clock conversion of the frame's transport timestamp. -/
def flushFrame (cfg : VideoDecoderConfig) (buf : List RTSPData) : Option VideoFrame :=
  match buf with
  | [] => none
  | p :: _ =>
    if seqContiguous buf then
      some
        { buffer := (buf.map RTSPData.payload).flatten
          width := cfg.width
          height := cfg.height
          timestamp_unix_ns := rtpToWallNs cfg p.timestamp }
    else none

/-- Modelled from the spec: one step of the video decoder (§4.3).  Packets are
buffered keyed by the current frame's transport timestamp until a
frame-boundary marker is observed, or until a new timestamp starts (implying
the previous frame is complete), and only then is the frame flushed. -/
def videoStep (cfg : VideoDecoderConfig) (buf : List RTSPData) (p : RTSPData) :
    List RTSPData × List VideoFrame :=
  if sameFrame buf p then
    if p.marker then ([], (flushFrame cfg (buf ++ [p])).toList)
    else (buf ++ [p], [])
  else
    if p.marker then ([], (flushFrame cfg buf).toList ++ (flushFrame cfg [p]).toList)
    else ([p], (flushFrame cfg buf).toList)

/-- Modelled from the spec: the video decoder run from a given buffer over a
packet sequence; a trailing incomplete frame stays buffered internally and is
never exposed (§3, §4.3). -/
def videoDecodeFrom (cfg : VideoDecoderConfig) :
    List RTSPData → List RTSPData → List VideoFrame
  | _, [] => []
  | buf, p :: ps =>
    let step := videoStep cfg buf p
    step.2 ++ videoDecodeFrom cfg step.1 ps

/-- Modelled from the spec: `receive_video_frames` (missing
`streaming/video.py`) restricted to one connection attempt: decode the
attempt's raw packets starting from an empty buffer. -/
def receive_video_frames (cfg : VideoDecoderConfig) (ps : List RTSPData) :
    List VideoFrame :=
  videoDecodeFrom cfg [] ps

/-! #### Transport session resource handling (missing `streaming/base.py`) -/

/-- Modelled from the spec: the three ways a transport session's packet
sequence terminates (§4.2): remote close, a transport-level error with a
reason, or explicit consumer cancellation after some number of packets. -/
inductive ExitPath where
  | remoteClose
  | transportError (reason : String)
  | cancelled (after : Nat)
deriving DecidableEq, Repr

/-- Modelled from the spec: observable resource actions of one transport
session run (§4.2, §5): the network resource is opened at handshake, packets
are delivered, and the resource is released. -/
inductive TransportAction where
  | openResource
  | deliver (p : RTSPData)
  | closeResource
deriving DecidableEq, Repr

/-- Modelled from the spec: the action trace of one transport session run
(§4.2 "scoped acquisition with release on every exit path, including
cancellation", missing `streaming/base.py`): open, deliver the packets (all
of them, or only those read before cancellation), then release. -/
def sessionTrace (packets : List RTSPData) : ExitPath → List TransportAction
  | .cancelled n =>
    TransportAction.openResource ::
      ((packets.take n).map TransportAction.deliver ++ [TransportAction.closeResource])
  | _ =>
    TransportAction.openResource ::
      (packets.map TransportAction.deliver ++ [TransportAction.closeResource])

/-- Effect of one transport action on the open/closed state of the network
resource. -/
def resourceStep (st : Bool) : TransportAction → Bool
  | .openResource => true
  | .closeResource => false
  | .deliver _ => st

/-- Whether the network resource is still open after a trace, starting from
closed. -/
def resourceOpenAfter (acts : List TransportAction) : Bool :=
  acts.foldl resourceStep false

/-- Number of `closeResource` actions in a trace. -/
def closeCount (acts : List TransportAction) : Nat :=
  acts.countP fun a => a == TransportAction.closeResource

/-! #### Reconnect supervisor (missing `streaming/gaze.py` / `base.py`) -/

/-- Modelled from the spec: how one connection attempt ends (§4.4): the
remote closes gracefully or a transport error occurs. -/
inductive TermCause where
  | remoteClose
  | transportError (reason : String)
deriving DecidableEq, Repr

/-- Modelled from the spec: one connection attempt as seen by the supervisor —
the raw packets delivered before the session ended and the cause of the
termination (§4.2, §4.4). -/
structure Attempt where
  packets : List RTSPData
  cause : TermCause
deriving DecidableEq, Repr

/-- Modelled from the spec: the state of the caller-visible lazy sequence
after consuming finitely many connection attempts: still producing, or ended
with a surfaced terminal cause (§6, §7). -/
inductive StreamOutcome where
  | running
  | ended (cause : TermCause)
deriving DecidableEq, Repr

/-- Modelled from the spec: `receive_gaze_data` (§4.4, §6, missing
`streaming/gaze.py`): the Reconnect Supervisor observed after consuming a
given number of connection attempts from the endpoint's attempt supply.  Each
attempt's packets are fed through the gaze decoder; with
`run_loop = true` the supervisor re-resolves and reconnects after every
disconnect, with `run_loop = false` the first disconnect ends the sequence
with its cause surfaced. -/
def receive_gaze_data (supply : Nat → Attempt) (run_loop : Bool) :
    Nat → List GazeData × StreamOutcome
  | 0 => ([], .running)
  | n + 1 =>
    let a := supply 0
    let samples := decodeGazeStream a.packets
    if run_loop then
      let rest := receive_gaze_data (fun i => supply (i + 1)) run_loop n
      (samples ++ rest.1, rest.2)
    else
      (samples, .ended a.cause)

/-! ### Helper lemmas -/

theorem replaceFirstMatching_length (l : List Sensor) (c : Sensor) :
    (replaceFirstMatching l c).length = l.length := by
  induction l with
  | nil => rfl
  | cons t ts ih =>
    cases h : sensorKeyMatches t c <;> simp [replaceFirstMatching, h, ih]

theorem replaceFirstMatching_no_match (l : List Sensor) (c : Sensor)
    (h : ∀ t ∈ l, sensorKeyMatches t c = false) :
    replaceFirstMatching l c = l := by
  induction l with
  | nil => rfl
  | cons t ts ih =>
    have ht : sensorKeyMatches t c = false := h t (by simp)
    simp [replaceFirstMatching, ht, ih fun u hu => h u (by simp [hu])]

theorem replaceFirstMatching_first_idx (l : List Sensor) (c : Sensor) (i : Nat)
    (hi : i < l.length)
    (hmatch : sensorKeyMatches (l.get ⟨i, hi⟩) c = true)
    (hbefore : ∀ j (hj : j < l.length), j < i →
      sensorKeyMatches (l.get ⟨j, hj⟩) c = false) :
    replaceFirstMatching l c = l.set i c := by
  induction l generalizing i with
  | nil => exact absurd hi (Nat.not_lt_zero i)
  | cons t ts ih =>
    cases i with
    | zero =>
      simp only [List.get] at hmatch
      simp [replaceFirstMatching, hmatch]
    | succ k =>
      have ht : sensorKeyMatches t c = false :=
        hbefore 0 (Nat.succ_pos ts.length) (Nat.succ_pos k)
      have hk : k < ts.length := Nat.lt_of_succ_lt_succ hi
      have hmatch' : sensorKeyMatches (ts.get ⟨k, hk⟩) c = true := by
        simpa using hmatch
      have hbefore' : ∀ j (hj : j < ts.length), j < k →
          sensorKeyMatches (ts.get ⟨j, hj⟩) c = false := by
        intro j hj hlt
        have := hbefore (j + 1) (Nat.succ_lt_succ hj) (Nat.succ_lt_succ hlt)
        simpa using this
      simp [replaceFirstMatching, ht, ih k hk hmatch' hbefore']

/-! ### Claims about the data model -/

/-- Sensor fixture: connected, but constructed with a non-RTSP protocol
field, as the `Sensor` constructor permits. -/
def sensorEx7 : Sensor :=
  { sensor := "gaze", conn_type := "DIRECT", connected := true
    ip := some "192.168.1.2", params := some "camera=gaze", port := some 8086
    protocol := "http" }

/-- C7, counterexample: a connected `Sensor` whose `protocol` field was set to
`"http"` produces a URL with the `http` scheme, not the URL the RTSP scheme
would give for the same host, port and params, so the claim that the protocol
field is always the RTSP scheme fails. -/
theorem claim_C7_counterexample :
    sensorEx7.connected = true
    ∧ sensorEx7.protocol ≠ "rtsp"
    ∧ sensorEx7.url = some "http://192.168.1.2:8086/?camera=gaze"
    ∧ sensorEx7.url ≠ some ("rtsp" ++ "://" ++ optStr sensorEx7.ip ++ ":"
        ++ optNatStr sensorEx7.port ++ "/?" ++ optStr sensorEx7.params) := by
  refine ⟨rfl, ?_, rfl, ?_⟩
  · decide
  · decide

/-- C7, amended: for every `Sensor` with `connected = true`, `Sensor.url` is
exactly `<protocol>://<ip>:<port>/?<params>` built from the sensor's own
fields, and the `protocol` field defaults to the RTSP scheme `"rtsp"` when
not explicitly overridden. -/
theorem claim_C7_amended_url_form :
    (∀ s : Sensor, s.connected = true →
      s.url = some (s.protocol ++ "://" ++ optStr s.ip ++ ":" ++ optNatStr s.port
        ++ "/?" ++ optStr s.params))
    ∧ ∀ n c, ({ sensor := n, conn_type := c } : Sensor).protocol = "rtsp" := by
  constructor
  · intro s h
    simp [Sensor.url, h]
  · intro n c
    rfl

/-- C7 amended, witness at the spec's §8 scenario endpoint. -/
theorem claim_C7_amended_url_form_witness :
    ({ sensor := "gaze", conn_type := "DIRECT", connected := true
       ip := some "10.0.0.2", params := some "camera=gaze", port := some 8086
       protocol := "rtsp" } : Sensor).url = some "rtsp://10.0.0.2:8086/?camera=gaze"
    ∧ ({ sensor := "gaze", conn_type := "DIRECT" } : Sensor).protocol = "rtsp" :=
  ⟨claim_C7_amended_url_form.1 _ rfl, claim_C7_amended_url_form.2 "gaze" "DIRECT"⟩

/-- C8: each `direct_*_sensor` accessor of `Status` totally produces a
`Sensor` (never a missing value): when no DIRECT sensor of the requested name
is in the sensor list it is the default `Sensor` for that name with
`connected = false`, and otherwise it is the first matching sensor. -/
theorem claim_C8_direct_sensors_total (st : Status) :
    (st.matching_sensors (some "world") (some "DIRECT") = [] →
      st.direct_world_sensor =
        { sensor := "world", conn_type := "DIRECT", connected := false
          ip := none, params := none, port := none, protocol := "rtsp" })
    ∧ (∀ m ms, st.matching_sensors (some "world") (some "DIRECT") = m :: ms →
        st.direct_world_sensor = m)
    ∧ (st.matching_sensors (some "gaze") (some "DIRECT") = [] →
      st.direct_gaze_sensor =
        { sensor := "gaze", conn_type := "DIRECT", connected := false
          ip := none, params := none, port := none, protocol := "rtsp" })
    ∧ (∀ m ms, st.matching_sensors (some "gaze") (some "DIRECT") = m :: ms →
        st.direct_gaze_sensor = m)
    ∧ (st.matching_sensors (some "imu") (some "DIRECT") = [] →
      st.direct_imu_sensor =
        { sensor := "imu", conn_type := "DIRECT", connected := false
          ip := none, params := none, port := none, protocol := "rtsp" })
    ∧ (∀ m ms, st.matching_sensors (some "imu") (some "DIRECT") = m :: ms →
        st.direct_imu_sensor = m)
    ∧ (st.matching_sensors (some "eyes") (some "DIRECT") = [] →
      st.direct_eyes_sensor =
        { sensor := "eyes", conn_type := "DIRECT", connected := false
          ip := none, params := none, port := none, protocol := "rtsp" })
    ∧ ∀ m ms, st.matching_sensors (some "eyes") (some "DIRECT") = m :: ms →
        st.direct_eyes_sensor = m := by
  refine ⟨?_, ?_, ?_, ?_, ?_, ?_, ?_, ?_⟩ <;>
    first
    | (intro h
       simp [Status.direct_world_sensor, Status.direct_gaze_sensor,
         Status.direct_imu_sensor, Status.direct_eyes_sensor, h])
    | (intro m ms h
       simp [Status.direct_world_sensor, Status.direct_gaze_sensor,
         Status.direct_imu_sensor, Status.direct_eyes_sensor, h])

/-- Status fixture with an empty sensor list. -/
def statusEx8 : Status :=
  { phone :=
      { battery_level := 80, battery_state := "OK", device_id := "dev1"
        device_name := "Pixel", ip := "192.168.1.3", memory := 1024
        memory_state := "OK", time_echo_port := none }
    hardware := {}
    sensors := []
    recording := none }

/-- C8, witness: on a status with no sensors, all four accessors return the
default disconnected sensor of their name. -/
theorem claim_C8_direct_sensors_total_witness :
    statusEx8.direct_world_sensor =
      { sensor := "world", conn_type := "DIRECT", connected := false
        ip := none, params := none, port := none, protocol := "rtsp" }
    ∧ statusEx8.direct_gaze_sensor =
      { sensor := "gaze", conn_type := "DIRECT", connected := false
        ip := none, params := none, port := none, protocol := "rtsp" }
    ∧ statusEx8.direct_imu_sensor =
      { sensor := "imu", conn_type := "DIRECT", connected := false
        ip := none, params := none, port := none, protocol := "rtsp" }
    ∧ statusEx8.direct_eyes_sensor =
      { sensor := "eyes", conn_type := "DIRECT", connected := false
        ip := none, params := none, port := none, protocol := "rtsp" } :=
  ⟨(claim_C8_direct_sensors_total statusEx8).1 rfl,
    (claim_C8_direct_sensors_total statusEx8).2.2.1 rfl,
    (claim_C8_direct_sensors_total statusEx8).2.2.2.2.1 rfl,
    (claim_C8_direct_sensors_total statusEx8).2.2.2.2.2.2.1 rfl⟩

/-- C9: `Sensor.url` is `none` exactly when the sensor is not connected, and
for a connected sensor it is the formatted URL string even when `ip`, `port`
or `params` are absent (they render as the text `"None"`, as Python
f-strings do). -/
theorem claim_C9_url_none_iff_disconnected (s : Sensor) :
    (s.url = none ↔ s.connected = false)
    ∧ (s.connected = true →
      s.url = some (s.protocol ++ "://" ++ optStr s.ip ++ ":" ++ optNatStr s.port
        ++ "/?" ++ optStr s.params)) := by
  constructor
  · cases h : s.connected <;> simp [Sensor.url, h]
  · intro h
    simp [Sensor.url, h]

/-- C9, witness: a connected sensor with `ip`, `port` and `params` all absent
still yields a URL, with the absent fields rendered as `"None"`. -/
theorem claim_C9_url_none_iff_disconnected_witness :
    ({ sensor := "gaze", conn_type := "DIRECT", connected := true } : Sensor).url
      = some "rtsp://None:None/?None" :=
  (claim_C9_url_none_iff_disconnected
    { sensor := "gaze", conn_type := "DIRECT", connected := true }).2 rfl

/-- C10: updating a `Status` with a `Sensor` component leaves `phone`,
`hardware` and `recording` unchanged, never changes the number of sensors
(in particular never appends), leaves the sensor list unchanged when no
entry matches on `(sensor, conn_type)`, and replaces exactly the first
matching entry otherwise. -/
theorem claim_C10_update_sensor_replace_first (st : Status) (s : Sensor) :
    (st.update (Component.sensor s)).phone = st.phone
    ∧ (st.update (Component.sensor s)).hardware = st.hardware
    ∧ (st.update (Component.sensor s)).recording = st.recording
    ∧ (st.update (Component.sensor s)).sensors.length = st.sensors.length
    ∧ ((∀ t ∈ st.sensors, sensorKeyMatches t s = false) →
        (st.update (Component.sensor s)).sensors = st.sensors)
    ∧ ∀ i (hi : i < st.sensors.length),
        sensorKeyMatches (st.sensors.get ⟨i, hi⟩) s = true →
        (∀ j (hj : j < st.sensors.length), j < i →
          sensorKeyMatches (st.sensors.get ⟨j, hj⟩) s = false) →
        (st.update (Component.sensor s)).sensors = st.sensors.set i s :=
  ⟨rfl, rfl, rfl, replaceFirstMatching_length st.sensors s,
    fun h => replaceFirstMatching_no_match st.sensors s h,
    fun i hi hmatch hbefore =>
      replaceFirstMatching_first_idx st.sensors s i hi hmatch hbefore⟩

/-- Status fixture with two DIRECT sensors, used to exercise the update. -/
def statusEx10 : Status :=
  { phone :=
      { battery_level := 80, battery_state := "OK", device_id := "dev1"
        device_name := "Pixel", ip := "192.168.1.3", memory := 1024
        memory_state := "OK", time_echo_port := none }
    hardware := {}
    sensors :=
      [{ sensor := "world", conn_type := "DIRECT", connected := true
         ip := some "192.168.1.2", params := some "camera=world"
         port := some 8086, protocol := "rtsp" },
       { sensor := "gaze", conn_type := "DIRECT", connected := false
         ip := none, params := none, port := none, protocol := "rtsp" }]
    recording := none }

/-- Sensor fixture: a freshly connected gaze sensor, matching the second
entry of `statusEx10` on `(sensor, conn_type)`. -/
def sensorEx10 : Sensor :=
  { sensor := "gaze", conn_type := "DIRECT", connected := true
    ip := some "192.168.1.2", params := some "camera=gaze", port := some 8086
    protocol := "rtsp" }

/-- C10, witness: the update replaces exactly the matching entry at index 1
and leaves the phone field unchanged. -/
theorem claim_C10_update_sensor_replace_first_witness :
    (statusEx10.update (Component.sensor sensorEx10)).sensors
      = statusEx10.sensors.set 1 sensorEx10
    ∧ (statusEx10.update (Component.sensor sensorEx10)).phone = statusEx10.phone
    ∧ ((∀ t ∈ statusEx10.sensors, sensorKeyMatches t sensorEx10 = false) →
        (statusEx10.update (Component.sensor sensorEx10)).sensors
          = statusEx10.sensors) := by
  have h := claim_C10_update_sensor_replace_first statusEx10 sensorEx10
  refine ⟨h.2.2.2.2.2 1 (by decide) (by decide) ?_, h.1, h.2.2.2.2.1⟩
  intro j hj hlt
  have hj0 : j = 0 := by omega
  subst hj0
  exact (by decide :
    sensorKeyMatches (statusEx10.sensors.get ⟨0, Nat.zero_lt_two⟩) sensorEx10 = false)

/-! ### Claims about the streaming subsystem -/

theorem decodeGazeStream_eq (ps : List RTSPData) :
    decodeGazeStream ps
      = (ps.filter fun p => wellFormedGazePayload p.payload).map gazeOf := by
  induction ps with
  | nil => rfl
  | cons p ps ih =>
    simp only [decodeGazeStream] at ih ⊢
    cases h : wellFormedGazePayload p.payload <;>
      simp [decodeGazePacket, List.filterMap_cons, List.filter_cons, h, ih]

/-- C2: feeding the gaze decoder any packet sequence, the number of emitted
samples is exactly the number of well-formed packets; decoding a
concatenation decodes both parts in sequence; and a malformed packet inserted
anywhere contributes zero samples while the decoding continues past it
unchanged — it never terminates the sequence. -/
theorem claim_C2_gaze_decoder_drops_malformed (ps qs : List RTSPData)
    (p : RTSPData) :
    (decodeGazeStream ps).length
      = (ps.filter fun q => wellFormedGazePayload q.payload).length
    ∧ decodeGazeStream (ps ++ qs) = decodeGazeStream ps ++ decodeGazeStream qs
    ∧ (wellFormedGazePayload p.payload = false →
        decodeGazeStream (ps ++ p :: qs)
          = decodeGazeStream ps ++ decodeGazeStream qs) := by
  refine ⟨?_, ?_, ?_⟩
  · rw [decodeGazeStream_eq]
    exact List.length_map _ _
  · simp [decodeGazeStream, List.filterMap_append]
  · intro h
    simp [decodeGazeStream, List.filterMap_append, List.filterMap_cons,
      decodeGazePacket, h]

/-- Well-formed 26-byte gaze packet fixture with embedded timestamp 10. -/
def gazePacketA : RTSPData :=
  { payload := List.replicate 25 0 ++ [10], timestamp := 100, seq := 1 }

/-- Well-formed 26-byte gaze packet fixture with embedded timestamp 20. -/
def gazePacketB : RTSPData :=
  { payload := List.replicate 25 0 ++ [20], timestamp := 200, seq := 2 }

/-- Well-formed 26-byte gaze packet fixture with embedded timestamp 5. -/
def gazePacketLo : RTSPData :=
  { payload := List.replicate 25 0 ++ [5], timestamp := 300, seq := 3 }

/-- Malformed (truncated) packet fixture. -/
def badPacket : RTSPData :=
  { payload := [1, 2, 3], timestamp := 150, seq := 9 }

/-- C2, witness: a truncated packet between two valid ones is dropped and the
decoding continues with the remaining valid packets. -/
theorem claim_C2_gaze_decoder_drops_malformed_witness :
    wellFormedGazePayload badPacket.payload = false
    ∧ decodeGazeStream ([gazePacketA] ++ badPacket :: [gazePacketB])
      = decodeGazeStream [gazePacketA] ++ decodeGazeStream [gazePacketB] :=
  ⟨by decide,
    (claim_C2_gaze_decoder_drops_malformed [gazePacketA] [gazePacketB]
      badPacket).2.2 (by decide)⟩

/-- C4, counterexample: two well-formed gaze packets arriving with decreasing
embedded timestamps are decoded in arrival order, so the consumer observes
timestamps 10 then 5 — not a non-decreasing sequence; the decoder neither
reorders nor drops the out-of-order packet. -/
theorem claim_C4_counterexample :
    (decodeGazeStream [gazePacketA, gazePacketLo]).map GazeData.timestamp_unix_ns
      = [10, 5]
    ∧ ¬ (((decodeGazeStream [gazePacketA, gazePacketLo]).map
        GazeData.timestamp_unix_ns).Pairwise (· ≤ ·)) := by
  constructor
  · decide
  · decide

/-- C4, amended: the gaze decoder emits samples in transport arrival order
without reordering (its output is exactly the well-formed packets, decoded,
in order), so within a single connection attempt the consumer-observed sample
timestamps are non-decreasing whenever the packets' decoded timestamps arrive
in non-decreasing order. -/
theorem claim_C4_amended_order_preserving (ps : List RTSPData) :
    decodeGazeStream ps
      = (ps.filter fun p => wellFormedGazePayload p.payload).map gazeOf
    ∧ (((ps.map gazeOf).map GazeData.timestamp_unix_ns).Pairwise (· ≤ ·) →
        ((decodeGazeStream ps).map GazeData.timestamp_unix_ns).Pairwise (· ≤ ·)) := by
  refine ⟨decodeGazeStream_eq ps, ?_⟩
  intro h
  rw [decodeGazeStream_eq]
  exact List.Pairwise.sublist
    (((List.filter_sublist ps).map gazeOf).map GazeData.timestamp_unix_ns) h

/-- C4 amended, witness: two well-formed packets with increasing embedded
timestamps yield samples with non-decreasing timestamps. -/
theorem claim_C4_amended_order_preserving_witness :
    ((decodeGazeStream [gazePacketA, gazePacketB]).map
      GazeData.timestamp_unix_ns).Pairwise (· ≤ ·) :=
  (claim_C4_amended_order_preserving [gazePacketA, gazePacketB]).2 (by decide)

/-- C3: the video decoder never emits from a buffered packet group with a
sequence-number gap (the frame is dropped entirely); every emitted frame
reassembles the payloads of all buffered constituent packets of its
timestamp, with the wall-clock conversion of that transport timestamp; and a
packet of the current frame without a frame-boundary marker is only buffered
— nothing is emitted, so no partial frame is ever exposed. -/
theorem claim_C3_video_frame_reassembly (cfg : VideoDecoderConfig)
    (buf : List RTSPData) (p : RTSPData) :
    (seqContiguous buf = false → flushFrame cfg buf = none)
    ∧ (∀ f, flushFrame cfg buf = some f →
        seqContiguous buf = true
        ∧ f.buffer = (buf.map RTSPData.payload).flatten
        ∧ ∃ q qs, buf = q :: qs
            ∧ f.timestamp_unix_ns = rtpToWallNs cfg q.timestamp)
    ∧ (p.marker = false → sameFrame buf p = true →
        videoStep cfg buf p = (buf ++ [p], [])) := by
  refine ⟨?_, ?_, ?_⟩
  · intro h
    cases buf with
    | nil => rfl
    | cons q qs => simp [flushFrame, h]
  · intro f hf
    cases buf with
    | nil => simp [flushFrame] at hf
    | cons q qs =>
      cases hcont : seqContiguous (q :: qs) with
      | false => simp [flushFrame, hcont] at hf
      | true =>
        simp only [flushFrame, hcont, if_pos] at hf
        obtain rfl := (Option.some.injEq _ _).mp hf
        exact ⟨rfl, rfl, q, qs, rfl, rfl⟩
  · intro hm hs
    simp [videoStep, hs, hm]

/-- Video decoder configuration fixture: 90 kHz clock, reference sample at
wall-clock time 1000 ns for transport timestamp 0. -/
def cfgEx : VideoDecoderConfig :=
  { clockRate := 90000, ref := { rtpRef := 0, wallRefNs := 1000 }
    width := 1088, height := 1080 }

/-- Buffered packet group fixture with a sequence-number gap (1 then 3). -/
def bufGap : List RTSPData :=
  [{ payload := [1], timestamp := 100, seq := 1 },
   { payload := [2], timestamp := 100, seq := 3 }]

/-- Buffered packet group fixture with contiguous sequence numbers. -/
def bufOk : List RTSPData :=
  [{ payload := [1], timestamp := 100, seq := 1 },
   { payload := [2], timestamp := 100, seq := 2 }]

/-- Non-marker packet fixture continuing the frame of `bufOk`. -/
def pktNext : RTSPData :=
  { payload := [3], timestamp := 100, seq := 3, marker := false }

/-- C3, witness: the gapped group is dropped; the contiguous group flushes to
a frame reassembling both payloads with the converted timestamp; buffering a
non-marker packet of the same frame emits nothing. -/
theorem claim_C3_video_frame_reassembly_witness :
    flushFrame cfgEx bufGap = none
    ∧ (seqContiguous bufOk = true
        ∧ ({ buffer := [1, 2], width := 1088, height := 1080
             timestamp_unix_ns := 1112111 } : VideoFrame).buffer
          = (bufOk.map RTSPData.payload).flatten)
    ∧ videoStep cfgEx bufOk pktNext = (bufOk ++ [pktNext], []) := by
  refine ⟨?_, ?_, ?_⟩
  · exact (claim_C3_video_frame_reassembly cfgEx bufGap pktNext).1 (by decide)
  · have h := (claim_C3_video_frame_reassembly cfgEx bufOk pktNext).2.1
      { buffer := [1, 2], width := 1088, height := 1080
        timestamp_unix_ns := 1112111 } (by decide)
    exact ⟨h.1, h.2.1⟩
  · exact (claim_C3_video_frame_reassembly cfgEx bufOk pktNext).2.2 rfl rfl

/-- C5: the resolver fails with `SDPDataNotAvailableError` exactly when the
endpoint exposes no session description within the bounded timeout or the
description cannot be parsed as valid session metadata; when resolution
fails, no raw packet is delivered (`receive_raw_rtsp_data` propagates the
error), and packets are delivered only together with a successfully resolved
descriptor. -/
theorem claim_C5_sdp_resolution (b : EndpointBehavior) :
    ((∃ e, resolveSessionDescription b = .error e) ↔
      (b.describeResponse = none
        ∨ ∃ s, b.describeResponse = some s ∧ parseSessionDescription s = none))
    ∧ (∀ e, resolveSessionDescription b = .error e →
        receive_raw_rtsp_data b = .error e)
    ∧ (∀ d ps, receive_raw_rtsp_data b = .ok (d, ps) →
        resolveSessionDescription b = .ok d ∧ ps = b.packets) := by
  refine ⟨?_, ?_, ?_⟩
  · cases hdr : b.describeResponse with
    | none => simp [resolveSessionDescription, hdr]
    | some s =>
      cases hp : parseSessionDescription s with
      | none => simp [resolveSessionDescription, hdr, hp]
      | some d => simp [resolveSessionDescription, hdr, hp]
  · intro e he
    simp [receive_raw_rtsp_data, he]
  · intro d ps h
    cases hres : resolveSessionDescription b with
    | error e => simp [receive_raw_rtsp_data, hres] at h
    | ok d2 =>
      simp only [receive_raw_rtsp_data, hres, Except.ok.injEq, Prod.mk.injEq] at h
      exact ⟨congrArg Except.ok h.1, h.2.symm⟩

/-- C5, witness: an endpoint exposing no description within the timeout makes
the resolver fail, and no raw packet is delivered. -/
theorem claim_C5_sdp_resolution_witness :
    (∃ e, resolveSessionDescription
      { describeResponse := none, packets := [] } = .error e)
    ∧ receive_raw_rtsp_data { describeResponse := none, packets := [] }
      = .error { message := "no SDP data available before timeout" } :=
  ⟨(claim_C5_sdp_resolution { describeResponse := none, packets := [] }).1.mpr
      (Or.inl rfl),
    (claim_C5_sdp_resolution { describeResponse := none, packets := [] }).2.1
      _ rfl⟩

theorem resourceOpenAfter_deliver_close (l : List RTSPData) (st : Bool) :
    List.foldl resourceStep st
      (l.map TransportAction.deliver ++ [TransportAction.closeResource]) = false := by
  induction l generalizing st with
  | nil => rfl
  | cons p ps ih => exact ih st

theorem closeCount_deliver (l : List RTSPData) :
    closeCount (l.map TransportAction.deliver) = 0 := by
  induction l with
  | nil => rfl
  | cons p ps ih =>
    simp only [List.map_cons, closeCount, List.countP_cons] at ih ⊢
    simp [ih]

/-- C6: on every exit path of a transport session run — remote close,
transport error, or consumer cancellation after any number of packets — the
network resource opened at handshake is released: after the run's action
trace the resource is closed, and the trace contains exactly one release. -/
theorem claim_C6_resource_release (packets : List RTSPData) (path : ExitPath) :
    resourceOpenAfter (sessionTrace packets path) = false
    ∧ closeCount (sessionTrace packets path) = 1
    ∧ TransportAction.closeResource ∈ sessionTrace packets path := by
  have key : ∀ l : List RTSPData,
      resourceOpenAfter
        (TransportAction.openResource ::
          (l.map TransportAction.deliver ++ [TransportAction.closeResource])) = false
      ∧ closeCount
        (TransportAction.openResource ::
          (l.map TransportAction.deliver ++ [TransportAction.closeResource])) = 1
      ∧ TransportAction.closeResource ∈
        TransportAction.openResource ::
          (l.map TransportAction.deliver ++ [TransportAction.closeResource]) := by
    intro l
    refine ⟨resourceOpenAfter_deliver_close l true, ?_, by simp⟩
    simp only [closeCount, List.countP_cons, List.countP_append] at *
    have h0 := closeCount_deliver l
    simp only [closeCount] at h0
    simp [h0]
  cases path with
  | remoteClose => exact key packets
  | transportError r => exact key packets
  | cancelled n => exact key (packets.take n)

/-- C1: with `run_loop = true` the sample sequence produced by
`receive_gaze_data` is never in an ended state after consuming any number of
connection attempts (it keeps reconnecting, concatenating every attempt's
decoded samples), and with `run_loop = false` it terminates at the first
disconnect, surfacing that attempt's terminal cause — in particular the
`TransportError` when the transport errored. -/
theorem claim_C1_receive_gaze_data_run_loop (supply : Nat → Attempt) (n : Nat)
    (r : String) :
    (receive_gaze_data supply true n).2 = StreamOutcome.running
    ∧ (receive_gaze_data supply true n).1
      = ((List.range n).map fun i => decodeGazeStream (supply i).packets).flatten
    ∧ receive_gaze_data supply false (n + 1)
      = (decodeGazeStream (supply 0).packets, StreamOutcome.ended (supply 0).cause)
    ∧ ((supply 0).cause = TermCause.transportError r →
        (receive_gaze_data supply false (n + 1)).2
          = StreamOutcome.ended (TermCause.transportError r)) := by
  refine ⟨?_, ?_, ?_, ?_⟩
  · induction n generalizing supply with
    | zero => rfl
    | succ m ih => simpa [receive_gaze_data] using ih fun i => supply (i + 1)
  · induction n generalizing supply with
    | zero => rfl
    | succ m ih =>
      have hrec := ih fun i => supply (i + 1)
      simp only [receive_gaze_data, List.range_succ_eq_map, List.map_cons,
        List.map_map, List.flatten_cons, if_true]
      rw [hrec]
      rfl
  · simp [receive_gaze_data]
  · intro h
    simp [receive_gaze_data, h]

/-- Attempt fixture: two valid gaze packets, then a transport reset. -/
def attemptEx : Attempt :=
  { packets := [gazePacketA, gazePacketB]
    cause := TermCause.transportError "reset" }

/-- C1, witness: with the transport resetting after two packets,
`run_loop = false` ends the stream with the surfaced `TransportError` after
exactly the two decoded samples, while `run_loop = true` is still running
after three attempts. -/
theorem claim_C1_receive_gaze_data_run_loop_witness :
    (receive_gaze_data (fun _ => attemptEx) false 1).2
      = StreamOutcome.ended (TermCause.transportError "reset")
    ∧ receive_gaze_data (fun _ => attemptEx) false 1
      = (decodeGazeStream attemptEx.packets,
          StreamOutcome.ended attemptEx.cause)
    ∧ (receive_gaze_data (fun _ => attemptEx) true 3).2
      = StreamOutcome.running :=
  ⟨(claim_C1_receive_gaze_data_run_loop (fun _ => attemptEx) 0 "reset").2.2.2 rfl,
    (claim_C1_receive_gaze_data_run_loop (fun _ => attemptEx) 0 "reset").2.2.1,
    (claim_C1_receive_gaze_data_run_loop (fun _ => attemptEx) 3 "reset").1⟩

end RealtimeAPI
